import Mathlib

/-!
Shallow embedding of `nvidia.go` from the k8s-device-plugin repository.

Strings are modelled as `List Char`.  The external NVML binding is modelled
abstractly: device enumeration results are passed in as lists of physical
device descriptors, `ParseMigDeviceUUID` is an abstract parameter
`parseMig : List Char → Option (List Char × Nat × Nat)` (returning the parent
GPU UUID plus the GPU-instance and compute-instance ids on success), and the
event-wait loop of `checkHealth` is fed an explicit list of
`(event, wait-error?)` pairs.  Go `uint` arithmetic on the quantities involved
is faithfully modelled by `Nat` arithmetic: `getReservedMemPerGPU` panics
unless the reservation lies in (0,100], so the subtraction `1 - reserve/100`
in `MigDeviceManager.Devices` never underflows.
-/

/-- Health status of a virtual device (`pluginapi.Healthy` / unhealthy). -/
inductive Health where
  | healthy : Health
  | unhealthy : Health
deriving DecidableEq, Repr

/-- The `Device` struct: an embedded `pluginapi.Device` (ID, Health) together
with the device node path. -/
structure VirtualDevice where
  id : List Char
  health : Health
  path : List Char
deriving DecidableEq, Repr

/-- Descriptor of one physical GPU as returned by `nvml.NewDevice`:
UUID, device node path, memory (MiB), and whether MIG mode is enabled. -/
structure PhysDevice where
  uuid : List Char
  path : List Char
  memory : Nat
  migEnabled : Bool
deriving DecidableEq, Repr

/-- Descriptor of one physical GPU in MIG mode, additionally carrying the
list of its MIG partitions (of abstract descriptor type `P`, matched by the
opaque partition selector). -/
structure MigPhysDevice (P : Type) where
  uuid : List Char
  path : List Char
  memory : Nat
  migEnabled : Bool
  migs : List P

/-- `GpuDeviceManager` struct. -/
structure GpuDeviceManager where
  skipMigEnabledGPUs : Bool

/-- `MigDeviceManager` struct: the strategy is the opaque
`MatchesResource(mig, resource)` predicate, `resource` the configured
resource-class name. -/
structure MigDeviceManager (P : Type) where
  strategy : P → List Char → Bool
  resource : List Char

/- ---------------------------------------------------------------------
   Fake device id encoding / decoding
   --------------------------------------------------------------------- -/

/-- The separator `"-_-"` used by `generateFakeDeviceID`. -/
def sepChars : List Char := ['-', '_', '-']

/-- `generateFakeDeviceID(realID, fakeCounter)`:
`fmt.Sprintf("%s-_-%d", realID, fakeCounter)`. -/
def generateFakeDeviceID (realID : List Char) (fakeCounter : Nat) : List Char :=
  realID ++ sepChars ++ Nat.toDigits 10 fakeCounter

/-- Whether a character list starts with the separator `"-_-"`. -/
def startsWithSep : List Char → Bool
  | a :: b :: c :: _ => a == '-' && b == '_' && c == '-'
  | _ => false

/-- The prefix of a character list strictly before the first occurrence of
the separator `"-_-"` (the whole list if the separator does not occur).
This is exactly `strings.Split(s, "-_-")[0]`. -/
def splitBeforeSep : List Char → List Char
  | [] => []
  | c :: rest => if startsWithSep (c :: rest) then [] else c :: splitBeforeSep rest

/-- `extractRealDeviceID(fakeDeviceID)`: `strings.Split(fakeDeviceID, "-_-")[0]`. -/
def extractRealDeviceID (fakeDeviceID : List Char) : List Char :=
  splitBeforeSep fakeDeviceID

/-- Whether the separator `"-_-"` occurs anywhere in the list. -/
def containsSep : List Char → Bool
  | [] => false
  | c :: rest => startsWithSep (c :: rest) || containsSep rest

/-- Whether the list ends with the two characters `"-_"`. -/
def endsWithDashUnderscore : List Char → Bool
  | [] => false
  | [_] => false
  | [a, b] => a == '-' && b == '_'
  | _ :: b :: c :: rest => endsWithDashUnderscore (b :: c :: rest)

/- ---------------------------------------------------------------------
   Devices() for both managers
   --------------------------------------------------------------------- -/

/-- Loop body of `GpuDeviceManager.Devices`.  The `mem` argument is the
process-wide `gpuMemory` latch: it is set from the first enumerated device
whose latch finds it still zero (`if getGPUMemory() == 0 { setGPUMemory(...) }`),
and `actual := (getGPUMemory() / 100) * (100 - reserve)` virtual devices are
emitted per non-skipped GPU. -/
def gpuDevicesLoop (reserve : Nat) (skip : Bool) :
    List PhysDevice → Nat → List VirtualDevice
  | [], _ => []
  | d :: rest, mem =>
    let mem' := if mem == 0 then d.memory else mem
    if d.migEnabled && skip then
      gpuDevicesLoop reserve skip rest mem'
    else
      (List.range ((mem' / 100) * (100 - reserve))).map
        (fun j => ⟨generateFakeDeviceID d.uuid j, Health.healthy, d.path⟩)
        ++ gpuDevicesLoop reserve skip rest mem'

/-- `(g *GpuDeviceManager) Devices()`, with the enumerated physical devices
and the current `gpuMemory` latch passed explicitly. -/
def GpuDeviceManager.Devices (g : GpuDeviceManager) (reserve : Nat)
    (phys : List PhysDevice) (gpuMemory : Nat) : List VirtualDevice :=
  gpuDevicesLoop reserve g.skipMigEnabledGPUs phys gpuMemory

/-- Loop body of `MigDeviceManager.Devices`.  GPUs without MIG enabled are
skipped; for the rest, `actual := gpuMemory * (1 - reserve/100)` (Go `uint`
arithmetic, hence integer division) devices are emitted per matching MIG
partition, with the fake counter restarting at 0 for each partition. -/
def migDevicesLoop {P : Type} (reserve : Nat) (matchesRes : P → Bool) :
    List (MigPhysDevice P) → Nat → List VirtualDevice
  | [], _ => []
  | d :: rest, mem =>
    let mem' := if mem == 0 then d.memory else mem
    if !d.migEnabled then
      migDevicesLoop reserve matchesRes rest mem'
    else
      (d.migs.flatMap fun mig =>
          if matchesRes mig then
            (List.range (mem' * (1 - reserve / 100))).map
              (fun j => ⟨generateFakeDeviceID d.uuid j, Health.healthy, d.path⟩)
          else [])
        ++ migDevicesLoop reserve matchesRes rest mem'

/-- `(m *MigDeviceManager) Devices()`, with the enumerated physical devices
and the current `gpuMemory` latch passed explicitly. -/
def MigDeviceManager.Devices {P : Type} (m : MigDeviceManager P) (reserve : Nat)
    (phys : List (MigPhysDevice P)) (gpuMemory : Nat) : List VirtualDevice :=
  migDevicesLoop reserve (fun mig => m.strategy mig m.resource) phys gpuMemory

/- ---------------------------------------------------------------------
   checkHealth
   --------------------------------------------------------------------- -/

/-- `nvml.XidCriticalError` event type code. -/
def xidCriticalError : Nat := 8

/-- One fault event as returned by `nvml.WaitForEvent`.  `uuid = none`
models a nil UUID pointer; the instance ids model the dereferenced
`*e.GpuInstanceId` / `*e.ComputeInstanceId`. -/
structure Event where
  etype : Nat
  edata : Nat
  uuid : Option (List Char)
  gpuInstanceId : Nat
  computeInstanceId : Nat
deriving DecidableEq, Repr

/-- One iteration of the event-wait loop of `checkHealth`, processing the
pair `(e, err)` returned by `nvml.WaitForEvent` (`errored` models
`err != nil`).  Returns the devices sent to the `unhealthy` channel for this
event, in emission order. -/
def processEvent (devices : List VirtualDevice)
    (parseMig : List Char → Option (List Char × Nat × Nat))
    (e : Event) (errored : Bool) : List VirtualDevice :=
  if errored && !(e.etype == xidCriticalError) then []
  else if e.edata == 31 || e.edata == 43 || e.edata == 45 then []
  else
    match e.uuid with
    | none => devices
    | some u =>
      if u.length == 0 then devices
      else
        devices.filter fun d =>
          let id := extractRealDeviceID d.id
          match parseMig id with
          | some (g, gi, ci) =>
            g == u && gi == e.gpuInstanceId && ci == e.computeInstanceId
          | none =>
            id == u && (0xFFFFFFFF : Nat) == e.gpuInstanceId
              && (0xFFFFFFFF : Nat) == e.computeInstanceId

/-- ASCII lower-casing, modelling `strings.ToLower` on the ASCII directive
values involved. -/
def toLowerL (s : List Char) : List Char := s.map Char.toLower

/-- `strings.Contains(s, sub)`. -/
def containsSubstr : List Char → List Char → Bool
  | [], sub => sub.isEmpty
  | c :: rest, sub => sub.isPrefixOf (c :: rest) || containsSubstr rest sub

/-- Observable outcome of one `checkHealth` call: whether the event-set
subscription was opened, which GPU uuids were registered for
`XidCriticalError` interest, and the devices written to the `unhealthy`
channel, in order. -/
structure CheckHealthResult where
  subscriptionOpened : Bool
  registeredGpus : List (List Char)
  emissions : List VirtualDevice
deriving DecidableEq, Repr

/-- `checkHealth(stop, devices, unhealthy)`.  `env` is the value of the
`DP_DISABLE_HEALTHCHECKS` environment variable; `regOk gpu = false` models
`nvml.RegisterEventForDevice` failing with a "Not Supported" error for that
GPU uuid (any other registration error is fatal and not modelled); `waits`
is the finite prefix of `nvml.WaitForEvent` results processed before the
stop signal fires. -/
def checkHealth (env : List Char) (devices : List VirtualDevice)
    (parseMig : List Char → Option (List Char × Nat × Nat))
    (regOk : List Char → Bool)
    (waits : List (Event × Bool)) : CheckHealthResult :=
  let dis := toLowerL env
  let dis := if dis == ['a', 'l', 'l'] then ['x', 'i', 'd', 's'] else dis
  if containsSubstr dis ['x', 'i', 'd', 's'] then
    ⟨false, [], []⟩
  else
    let gpuOf := fun (d : VirtualDevice) =>
      match parseMig (extractRealDeviceID d.id) with
      | some (g, _, _) => g
      | none => extractRealDeviceID d.id
    ⟨true,
     (devices.filter fun d => regOk (gpuOf d)).map gpuOf,
     (devices.filter fun d => !regOk (gpuOf d))
       ++ waits.flatMap fun w => processEvent devices parseMig w.1 w.2⟩

/- ---------------------------------------------------------------------
   Spec-side definition for the partitioned-mode capacity formula
   --------------------------------------------------------------------- -/

/-- Modelled from the spec: the partitioned-mode per-partition usable count
`capacityBaseline * (1 − reservationPercent/100)` read, as the spec words it,
as a fractional (not percentage-floor) formula, over the rationals. -/
def migUsableFractionalSpec (capacityBaseline reservationPercent : ℚ) : ℚ :=
  capacityBaseline * (1 - reservationPercent / 100)

/- ---------------------------------------------------------------------
   Helper lemmas
   --------------------------------------------------------------------- -/

theorem endsWithDashUnderscore_cons (c : Char) (s : List Char)
    (h : endsWithDashUnderscore s = true) :
    endsWithDashUnderscore (c :: s) = true := by
  match s with
  | [] => simp [endsWithDashUnderscore] at h
  | [a] => simp [endsWithDashUnderscore] at h
  | a :: b :: rest => simpa [endsWithDashUnderscore] using h

theorem splitBeforeSep_append_sep (s t : List Char)
    (h1 : containsSep s = false) (h2 : endsWithDashUnderscore s = false) :
    splitBeforeSep (s ++ sepChars ++ t) = s := by
  induction s with
  | nil => simp [splitBeforeSep, sepChars, startsWithSep]
  | cons c s ih =>
    have h1' : startsWithSep (c :: s) = false ∧ containsSep s = false := by
      simpa [containsSep] using h1
    have h2' : endsWithDashUnderscore s = false := by
      cases hs : endsWithDashUnderscore s with
      | false => rfl
      | true => exact absurd (endsWithDashUnderscore_cons c s hs) (by simp [h2])
    have hcond : startsWithSep (c :: (s ++ sepChars ++ t)) = false := by
      match s with
      | [] =>
        cases hc : (c == '-') <;> simp [sepChars, startsWithSep, hc]
      | [a] =>
        simpa [endsWithDashUnderscore, sepChars, startsWithSep] using h2
      | a :: b :: rest =>
        simpa [startsWithSep] using h1'.1
    calc splitBeforeSep ((c :: s) ++ sepChars ++ t)
        = splitBeforeSep (c :: (s ++ sepChars ++ t)) := by simp
      _ = c :: splitBeforeSep (s ++ sepChars ++ t) := by
          rw [splitBeforeSep, hcond]; rfl
      _ = c :: s := by rw [ih h1'.2 h2']

/- ---------------------------------------------------------------------
   Claim theorems
   --------------------------------------------------------------------- -/

/-- C3 (counterexample): the round-trip claim fails as stated.  The real
identifier `"a-_"` contains neither the separator `"-_-"` nor any forbidden
token, yet `extractRealDeviceID (generateFakeDeviceID "a-_" 0)` returns
`"a"`, not `"a-_"`: the encoded form is `"a-_-_-0"` and the first occurrence
of `"-_-"` starts inside the real identifier's tail. -/
theorem c3_roundtrip_counterexample :
    containsSep ['a', '-', '_'] = false ∧
    extractRealDeviceID (generateFakeDeviceID ['a', '-', '_'] 0) ≠ ['a', '-', '_'] := by
  decide

/-- C3 (amended): `extractRealDeviceID` inverts `generateFakeDeviceID` for
every index and every real identifier that neither contains the separator
`"-_-"` nor ends with the two characters `"-_"`. -/
theorem c3_roundtrip_amended (realID : List Char) (idx : Nat)
    (h1 : containsSep realID = false)
    (h2 : endsWithDashUnderscore realID = false) :
    extractRealDeviceID (generateFakeDeviceID realID idx) = realID :=
  splitBeforeSep_append_sep realID (Nat.toDigits 10 idx) h1 h2

/-- C3 (witness): the amended round-trip at the concrete identifier
`"GPU-12"` (containing digits and hyphens) and index 7. -/
theorem c3_roundtrip_amended_witness :
    containsSep ['G', 'P', 'U', '-', '1', '2'] = false ∧
    endsWithDashUnderscore ['G', 'P', 'U', '-', '1', '2'] = false ∧
    extractRealDeviceID (generateFakeDeviceID ['G', 'P', 'U', '-', '1', '2'] 7)
      = ['G', 'P', 'U', '-', '1', '2'] :=
  ⟨by decide, by decide,
   c3_roundtrip_amended ['G', 'P', 'U', '-', '1', '2'] 7 (by decide) (by decide)⟩

/-- C1: in whole-device mode, an enumerated accelerator that is not skipped
(the MIG-enabled-and-skip condition fails), processed with the latched
capacity baseline `c ≠ 0` and reservation `reserve ∈ (0,100]`, contributes
exactly `floor(c/100) * (100 - reserve)` virtual devices, the `j`-th with
fake id `generateFakeDeviceID d.uuid j` and health `healthy`, before the loop
continues with the remaining accelerators; the emitted segment's length is
exactly `(c / 100) * (100 - reserve)`. -/
theorem c1_gpu_devices_per_accelerator (g : GpuDeviceManager) (reserve : Nat)
    (d : PhysDevice) (rest : List PhysDevice) (c : Nat)
    (hres1 : 0 < reserve) (hres2 : reserve ≤ 100) (hc : c ≠ 0)
    (hskip : ¬(d.migEnabled = true ∧ g.skipMigEnabledGPUs = true)) :
    g.Devices reserve (d :: rest) c =
      (List.range ((c / 100) * (100 - reserve))).map
        (fun j => ⟨generateFakeDeviceID d.uuid j, Health.healthy, d.path⟩)
        ++ g.Devices reserve rest c ∧
    ((List.range ((c / 100) * (100 - reserve))).map
        (fun j => (⟨generateFakeDeviceID d.uuid j, Health.healthy, d.path⟩ :
          VirtualDevice))).length = (c / 100) * (100 - reserve) := by
  have hand : (d.migEnabled && g.skipMigEnabledGPUs) = false := by
    cases hm : d.migEnabled <;> cases hs : g.skipMigEnabledGPUs <;> simp_all
  constructor
  · unfold GpuDeviceManager.Devices
    rw [gpuDevicesLoop]
    simp [hc, hand]
  · simp

/-- C1 (witness): one accelerator with latched baseline 8000 and reservation
10 yields exactly `floor(8000/100) * 90 = 7200` virtual devices; with
baseline 80 and reservation 25 the count formula gives
`floor(80/100) * 75 = 0`. -/
theorem c1_gpu_devices_per_accelerator_witness :
    (0 < 10 ∧ 10 ≤ 100 ∧ (8000 : Nat) ≠ 0 ∧
      ¬((⟨['G'], ['p'], 8000, false⟩ : PhysDevice).migEnabled = true ∧
        (⟨false⟩ : GpuDeviceManager).skipMigEnabledGPUs = true)) ∧
    (GpuDeviceManager.Devices ⟨false⟩ 10 [⟨['G'], ['p'], 8000, false⟩] 8000 =
      (List.range ((8000 / 100) * (100 - 10))).map
        (fun j => ⟨generateFakeDeviceID ['G'] j, Health.healthy, ['p']⟩)
        ++ GpuDeviceManager.Devices ⟨false⟩ 10 [] 8000 ∧
      ((List.range ((8000 / 100) * (100 - 10))).map
        (fun j => (⟨generateFakeDeviceID ['G'] j, Health.healthy, ['p']⟩ :
          VirtualDevice))).length = (8000 / 100) * (100 - 10)) ∧
    (8000 / 100) * (100 - 10) = 7200 ∧ (80 / 100) * (100 - 25) = 0 :=
  ⟨⟨by decide, by decide, by decide, by decide⟩,
   c1_gpu_devices_per_accelerator ⟨false⟩ 10 ⟨['G'], ['p'], 8000, false⟩ [] 8000
     (by decide) (by decide) (by decide) (by decide),
   by decide, by decide⟩

/-- C2 (counterexample): the per-partition count is not the fractional value
`capacityBaseline * (1 - reservationPercent/100)`.  With baseline 2 and
reservation 50 and one matching partition, the code emits
`2 * (1 - 50/100) = 2 * (1 - 0) = 2` devices (unsigned integer division),
while the fractional formula gives `2 * (1 - 1/2) = 1`. -/
theorem c2_mig_count_counterexample :
    (((MigDeviceManager.Devices (P := Nat) ⟨fun _ _ => true, []⟩ 50
        [⟨['G'], ['p'], 2, true, [0]⟩] 2).length : ℚ) ≠
      migUsableFractionalSpec 2 50) ∧
    (MigDeviceManager.Devices (P := Nat) ⟨fun _ _ => true, []⟩ 50
        [⟨['G'], ['p'], 2, true, [0]⟩] 2).length = 2 := by
  constructor
  · have h : (MigDeviceManager.Devices (P := Nat) ⟨fun _ _ => true, []⟩ 50
        [⟨['G'], ['p'], 2, true, [0]⟩] 2).length = 2 := rfl
    rw [h]
    unfold migUsableFractionalSpec
    norm_num
  · rfl

/-- C2 (amended): in partitioned mode, a MIG-enabled accelerator processed
with latched baseline `c ≠ 0` and reservation `reserve ∈ (0,100]` contributes
`c * (1 - reserve / 100)` virtual devices per matching partition, where the
division is unsigned-integer division: the count equals `c` for
`reserve < 100` and `0` for `reserve = 100` (not the fractional value
`c * (1 - reserve/100)` over the rationals). -/
theorem c2_mig_count_amended {P : Type} (m : MigDeviceManager P) (reserve : Nat)
    (d : MigPhysDevice P) (rest : List (MigPhysDevice P)) (c : Nat)
    (hres1 : 0 < reserve) (hres2 : reserve ≤ 100) (hc : c ≠ 0)
    (hmig : d.migEnabled = true) :
    m.Devices reserve (d :: rest) c =
      (d.migs.flatMap fun mig =>
        if m.strategy mig m.resource then
          (List.range (c * (1 - reserve / 100))).map
            (fun j => ⟨generateFakeDeviceID d.uuid j, Health.healthy, d.path⟩)
        else [])
        ++ m.Devices reserve rest c ∧
    c * (1 - reserve / 100) = if reserve = 100 then 0 else c := by
  constructor
  · unfold MigDeviceManager.Devices
    rw [migDevicesLoop]
    simp [hc, hmig]
  · by_cases h : reserve = 100
    · simp [h]
    · have hlt : reserve < 100 := lt_of_le_of_ne hres2 h
      simp [h, Nat.div_eq_of_lt hlt]

/-- C2 (witness): the amended statement at baseline 8000, reservation 10,
one MIG GPU with two partitions of which both match: each partition
contributes `8000 * (1 - 10/100) = 8000` devices (not 7200). -/
theorem c2_mig_count_amended_witness :
    (0 < 10 ∧ 10 ≤ 100 ∧ (8000 : Nat) ≠ 0 ∧
      (⟨['G'], ['p'], 8000, true, [0, 1]⟩ : MigPhysDevice Nat).migEnabled = true) ∧
    (MigDeviceManager.Devices (P := Nat) ⟨fun _ _ => true, []⟩ 10
        [⟨['G'], ['p'], 8000, true, [0, 1]⟩] 8000 =
      ((⟨['G'], ['p'], 8000, true, [0, 1]⟩ : MigPhysDevice Nat).migs.flatMap fun mig =>
        if (fun (_ : Nat) (_ : List Char) => true) mig [] then
          (List.range (8000 * (1 - 10 / 100))).map
            (fun j => ⟨generateFakeDeviceID ['G'] j, Health.healthy, ['p']⟩)
        else [])
        ++ MigDeviceManager.Devices (P := Nat) ⟨fun _ _ => true, []⟩ 10 [] 8000 ∧
      8000 * (1 - 10 / 100) = if 10 = 100 then 0 else 8000) :=
  ⟨⟨by decide, by decide, by decide, by decide⟩,
   c2_mig_count_amended ⟨fun _ _ => true, []⟩ 10 ⟨['G'], ['p'], 8000, true, [0, 1]⟩ [] 8000
     (by decide) (by decide) (by decide) (by decide)⟩

theorem count_flatMap_const {α β : Type} [BEq β] (a : β) (l : List α)
    (b : List β) :
    ((l.flatMap fun _ => b).count a) = l.length * b.count a := by
  induction l with
  | nil => simp
  | cons x l ih => simp [ih, Nat.succ_mul, Nat.add_comm]

theorem flatMap_if_eq_filter {α β : Type} (p : α → Bool) (b : List β)
    (l : List α) :
    (l.flatMap fun x => if p x then b else []) = (l.filter p).flatMap fun _ => b := by
  induction l with
  | nil => rfl
  | cons x l ih => by_cases h : p x <;> simp [List.filter_cons, h, ih]

/-- C10: in partitioned mode the fake counter restarts at 0 for every
matching partition of the same GPU, so as soon as at least two partitions of
a MIG-enabled accelerator match the resource and the per-partition count is
non-zero, the id list returned by `Devices()` contains the fake id
`generateFakeDeviceID d.uuid 0` at least twice — virtual-device ids are not
unique across partitions. -/
theorem c10_mig_duplicate_ids {P : Type} (m : MigDeviceManager P) (reserve : Nat)
    (d : MigPhysDevice P) (rest : List (MigPhysDevice P)) (c : Nat)
    (hc : c ≠ 0) (hmig : d.migEnabled = true)
    (hactual : c * (1 - reserve / 100) ≠ 0)
    (hmatch : 2 ≤ (d.migs.filter fun mig => m.strategy mig m.resource).length) :
    2 ≤ ((m.Devices reserve (d :: rest) c).map VirtualDevice.id).count
          (generateFakeDeviceID d.uuid 0) := by
  set a := generateFakeDeviceID d.uuid 0 with ha
  set blk := (List.range (c * (1 - reserve / 100))).map
      (fun j => (⟨generateFakeDeviceID d.uuid j, Health.healthy, d.path⟩ :
        VirtualDevice)) with hblk
  have hdev : m.Devices reserve (d :: rest) c =
      (d.migs.flatMap fun mig =>
        if m.strategy mig m.resource then blk else [])
        ++ m.Devices reserve rest c := by
    unfold MigDeviceManager.Devices
    rw [migDevicesLoop]
    simp [hc, hmig, hblk]
  rw [hdev, List.map_append, List.count_append]
  have hmain : 2 ≤ (((d.migs.flatMap fun mig =>
      if m.strategy mig m.resource then blk else []).map VirtualDevice.id).count a) := by
    rw [flatMap_if_eq_filter, List.map_flatMap]
    have hconst : ((d.migs.filter fun mig => m.strategy mig m.resource).flatMap
        fun _ => blk.map VirtualDevice.id).count a =
        (d.migs.filter fun mig => m.strategy mig m.resource).length *
          (blk.map VirtualDevice.id).count a :=
      count_flatMap_const a _ _
    rw [hconst]
    have hmem : a ∈ blk.map VirtualDevice.id := by
      rw [hblk, ha]
      simp only [List.map_map]
      exact List.mem_map_of_mem _
        (List.mem_range.mpr (Nat.pos_of_ne_zero hactual))
    have hcnt : 1 ≤ (blk.map VirtualDevice.id).count a :=
      List.count_pos_iff.mpr hmem
    calc 2 = 2 * 1 := by ring
      _ ≤ (d.migs.filter fun mig => m.strategy mig m.resource).length *
            (blk.map VirtualDevice.id).count a := Nat.mul_le_mul hmatch hcnt
  exact le_trans hmain (Nat.le_add_right _ _)

/-- C10 (witness): one MIG GPU with two matching partitions, baseline 5,
reservation 10: the fake id `"G-_-0"` occurs at least twice in the emitted
id list. -/
theorem c10_mig_duplicate_ids_witness :
    ((5 : Nat) ≠ 0 ∧
      (⟨['G'], ['p'], 5, true, [0, 1]⟩ : MigPhysDevice Nat).migEnabled = true ∧
      5 * (1 - 10 / 100) ≠ 0 ∧
      2 ≤ ((⟨['G'], ['p'], 5, true, [0, 1]⟩ : MigPhysDevice Nat).migs.filter
            fun mig => (fun (_ : Nat) (_ : List Char) => true) mig []).length) ∧
    2 ≤ ((MigDeviceManager.Devices (P := Nat) ⟨fun _ _ => true, []⟩ 10
          [⟨['G'], ['p'], 5, true, [0, 1]⟩] 5).map VirtualDevice.id).count
          (generateFakeDeviceID ['G'] 0) :=
  ⟨⟨by decide, by decide, by decide, by decide⟩,
   c10_mig_duplicate_ids ⟨fun _ _ => true, []⟩ 10 ⟨['G'], ['p'], 5, true, [0, 1]⟩ [] 5
     (by decide) (by decide) (by decide) (by decide)⟩

/-- C4 (counterexample): an event of a non-critical type that arrives with
no wait error is not ignored.  Here the event has type 0 (not
`XidCriticalError`), no wait error, code 0 and a nil UUID, and the monitor
emits the single monitored device as unhealthy. -/
theorem c4_noncritical_counterexample :
    (0 : Nat) ≠ xidCriticalError ∧
    processEvent [⟨['G', '-', '_', '-', '0'], Health.healthy, ['p']⟩] (fun _ => none)
        ⟨0, 0, none, 0, 0⟩ false =
      [⟨['G', '-', '_', '-', '0'], Health.healthy, ['p']⟩] := by
  decide

/-- C4 (amended): an event whose type is not the critical-error class is
ignored (no unhealthy emission) when it is returned together with a wait
error; an event delivered without a wait error is processed regardless of
its type field. -/
theorem c4_noncritical_with_error_ignored (devices : List VirtualDevice)
    (parseMig : List Char → Option (List Char × Nat × Nat)) (e : Event)
    (ht : e.etype ≠ xidCriticalError) :
    processEvent devices parseMig e true = [] := by
  simp [processEvent, ht]

/-- C4 (witness): a type-0 event accompanied by a wait error produces no
emission even with a monitored device present and a matching UUID. -/
theorem c4_noncritical_with_error_ignored_witness :
    (0 : Nat) ≠ xidCriticalError ∧
    processEvent [⟨['G', '-', '_', '-', '0'], Health.healthy, ['p']⟩] (fun _ => none)
        ⟨0, 0, some ['G'], 0xFFFFFFFF, 0xFFFFFFFF⟩ true = [] :=
  ⟨by decide,
   c4_noncritical_with_error_ignored _ _ _ (by decide)⟩

/-- C7: an event whose error code is 31, 43 or 45 never produces an
unhealthy emission, for any monitored device set, any parse function, and
whether or not the wait returned an error. -/
theorem c7_app_level_codes_ignored (devices : List VirtualDevice)
    (parseMig : List Char → Option (List Char × Nat × Nat)) (e : Event)
    (errored : Bool)
    (h : e.edata = 31 ∨ e.edata = 43 ∨ e.edata = 45) :
    processEvent devices parseMig e errored = [] := by
  rcases h with h | h | h <;> simp [processEvent, h]

/-- C7 (witness): a critical-type event with code 43 and a nil UUID emits
nothing, although a device is monitored. -/
theorem c7_app_level_codes_ignored_witness :
    ((43 : Nat) = 31 ∨ (43 : Nat) = 43 ∨ (43 : Nat) = 45) ∧
    processEvent [⟨['G', '-', '_', '-', '0'], Health.healthy, ['p']⟩] (fun _ => none)
        ⟨xidCriticalError, 43, none, 0, 0⟩ false = [] :=
  ⟨Or.inr (Or.inl rfl),
   c7_app_level_codes_ignored _ _ _ _ (Or.inr (Or.inl rfl))⟩

/-- C6: a critical-class event whose code is not application-level and whose
UUID is nil or empty makes the monitor emit exactly the monitored device
list, in order — each monitored device exactly once — after which the loop
continues with the next wait result. -/
theorem c6_empty_uuid_all_unhealthy (devices : List VirtualDevice)
    (parseMig : List Char → Option (List Char × Nat × Nat)) (e : Event)
    (errored : Bool)
    (ht : e.etype = xidCriticalError)
    (h31 : e.edata ≠ 31) (h43 : e.edata ≠ 43) (h45 : e.edata ≠ 45)
    (hu : e.uuid = none ∨ e.uuid = some []) :
    processEvent devices parseMig e errored = devices := by
  rcases hu with hu | hu <;> simp [processEvent, ht, hu, h31, h43, h45]

/-- C6 (witness): a critical event with code 79 and nil UUID emits both
monitored devices, each exactly once, in order. -/
theorem c6_empty_uuid_all_unhealthy_witness :
    ((8 : Nat) = xidCriticalError ∧ (79 : Nat) ≠ 31 ∧ (79 : Nat) ≠ 43 ∧
      (79 : Nat) ≠ 45) ∧
    processEvent
        [⟨['G', '-', '_', '-', '0'], Health.healthy, ['p']⟩,
         ⟨['H', '-', '_', '-', '1'], Health.healthy, ['q']⟩] (fun _ => none)
        ⟨8, 79, none, 0, 0⟩ false =
      [⟨['G', '-', '_', '-', '0'], Health.healthy, ['p']⟩,
       ⟨['H', '-', '_', '-', '1'], Health.healthy, ['q']⟩] :=
  ⟨⟨by decide, by decide, by decide, by decide⟩,
   c6_empty_uuid_all_unhealthy _ _ _ _ (by decide) (by decide) (by decide) (by decide)
     (Or.inl rfl)⟩

/-- C5 (counterexample): a monitored device whose decoded identifier is not
a partition-scoped UUID is not matched on real-identifier equality alone.
Here the critical event carries the device's real identifier `"G"` but a
GPU-instance id of 3; because the non-MIG device is compared with wildcard
ids `0xFFFFFFFF`, the event's partition ids do matter and nothing is
emitted, although the claim requires the device to be emitted. -/
theorem c5_wildcard_counterexample :
    extractRealDeviceID ['G', '-', '_', '-', '0'] = ['G'] ∧
    processEvent [⟨['G', '-', '_', '-', '0'], Health.healthy, ['p']⟩] (fun _ => none)
        ⟨xidCriticalError, 0, some ['G'], 3, 0xFFFFFFFF⟩ false = [] := by
  decide

/-- C5 (amended): for a critical-class event with non-app-level code and a
non-empty UUID `u`, over a monitored set whose decoded identifiers all fail
MIG-UUID parsing, the monitor emits exactly the devices whose decoded real
identifier equals `u` — but only when the event carries the wildcard
GPU-instance and compute-instance ids `0xFFFFFFFF`; an event carrying any
other partition id matches no such device. -/
theorem c5_wildcard_match_amended (devices : List VirtualDevice)
    (parseMig : List Char → Option (List Char × Nat × Nat)) (e : Event)
    (errored : Bool) (u : List Char)
    (ht : e.etype = xidCriticalError)
    (h31 : e.edata ≠ 31) (h43 : e.edata ≠ 43) (h45 : e.edata ≠ 45)
    (hu : e.uuid = some u) (hne : u ≠ [])
    (hparse : ∀ d ∈ devices, parseMig (extractRealDeviceID d.id) = none) :
    processEvent devices parseMig e errored =
      if e.gpuInstanceId = 0xFFFFFFFF ∧ e.computeInstanceId = 0xFFFFFFFF then
        devices.filter fun d => extractRealDeviceID d.id == u
      else [] := by
  have hc1 : (errored && !(e.etype == xidCriticalError)) = false := by simp [ht]
  have hc2 : (e.edata == 31 || e.edata == 43 || e.edata == 45) = false := by
    simp [h31, h43, h45]
  have hlen : (u.length == 0) = false := by
    simp [beq_iff_eq, List.length_eq_zero, hne]
  have hstep : processEvent devices parseMig e errored =
      devices.filter fun d =>
        extractRealDeviceID d.id == u &&
          (0xFFFFFFFF : Nat) == e.gpuInstanceId &&
          (0xFFFFFFFF : Nat) == e.computeInstanceId := by
    unfold processEvent
    rw [hc1, hc2, hu]
    simp only [Bool.false_eq_true, if_false, hlen]
    apply List.filter_congr
    intro d hd
    rw [hparse d hd]
  rw [hstep]
  by_cases hw : e.gpuInstanceId = 0xFFFFFFFF ∧ e.computeInstanceId = 0xFFFFFFFF
  · rw [if_pos hw]
    apply List.filter_congr
    intro d _
    simp [hw.1, hw.2]
  · rw [if_neg hw]
    rw [List.filter_eq_nil_iff]
    intro d _
    simp only [beq_iff_eq, Bool.and_eq_true]
    rintro ⟨⟨h1, h2⟩, h3⟩
    exact hw ⟨h2.symm, h3.symm⟩

/-- C5 (witness): a critical event with wildcard partition ids and UUID
`"G"` over two non-MIG monitored devices emits exactly the device sliced
from `"G"`. -/
theorem c5_wildcard_match_amended_witness :
    ((8 : Nat) = xidCriticalError ∧ (79 : Nat) ≠ 31 ∧ (79 : Nat) ≠ 43 ∧
      (79 : Nat) ≠ 45 ∧ (['G'] : List Char) ≠ [] ∧
      (∀ d ∈ [(⟨['G', '-', '_', '-', '0'], Health.healthy, ['p']⟩ : VirtualDevice),
              ⟨['H', '-', '_', '-', '1'], Health.healthy, ['q']⟩],
        (fun (_ : List Char) => (none : Option (List Char × Nat × Nat)))
          (extractRealDeviceID d.id) = none)) ∧
    processEvent
        [⟨['G', '-', '_', '-', '0'], Health.healthy, ['p']⟩,
         ⟨['H', '-', '_', '-', '1'], Health.healthy, ['q']⟩] (fun _ => none)
        ⟨8, 79, some ['G'], 0xFFFFFFFF, 0xFFFFFFFF⟩ false =
      (if (4294967295 : Nat) = 0xFFFFFFFF ∧ (4294967295 : Nat) = 0xFFFFFFFF then
        ([⟨['G', '-', '_', '-', '0'], Health.healthy, ['p']⟩,
          ⟨['H', '-', '_', '-', '1'], Health.healthy, ['q']⟩] :
            List VirtualDevice).filter fun d => extractRealDeviceID d.id == ['G']
      else []) :=
  ⟨⟨by decide, by decide, by decide, by decide, by decide, fun d _ => rfl⟩,
   c5_wildcard_match_amended _ _ _ false ['G'] (by decide) (by decide) (by decide)
     (by decide) rfl (by decide) (fun d _ => rfl)⟩

/-- C8: with the disable directive set to `"all"` or `"xids"`, `checkHealth`
is a no-op for every device set: the subscription is never opened, no
interest is registered, and nothing is written to the unhealthy channel. -/
theorem c8_disabled_noop (env : List Char) (devices : List VirtualDevice)
    (parseMig : List Char → Option (List Char × Nat × Nat))
    (regOk : List Char → Bool) (waits : List (Event × Bool))
    (h : env = ['a', 'l', 'l'] ∨ env = ['x', 'i', 'd', 's']) :
    checkHealth env devices parseMig regOk waits = ⟨false, [], []⟩ := by
  rcases h with h | h <;> subst h <;> rfl

/-- C8 (witness): directive `"all"` with a monitored device and a pending
critical event: nothing is opened, registered, or emitted. -/
theorem c8_disabled_noop_witness :
    ((['a', 'l', 'l'] : List Char) = ['a', 'l', 'l'] ∨
      (['a', 'l', 'l'] : List Char) = ['x', 'i', 'd', 's']) ∧
    checkHealth ['a', 'l', 'l'] [⟨['G', '-', '_', '-', '0'], Health.healthy, ['p']⟩]
        (fun _ => none) (fun _ => true)
        [(⟨8, 79, none, 0, 0⟩, false)] = ⟨false, [], []⟩ :=
  ⟨Or.inl rfl,
   c8_disabled_noop _ _ _ _ _ (Or.inl rfl)⟩

/-- C9: the disable directive is matched by case-insensitive substring: any
environment value whose lower-casing contains `"xids"` disables the monitor
entirely (no subscription, no registration, no emission), and any value
whose lower-casing is neither `"all"` nor contains `"xids"` lets monitoring
proceed (the subscription is opened). -/
theorem c9_disable_substring_matching (env : List Char)
    (devices : List VirtualDevice)
    (parseMig : List Char → Option (List Char × Nat × Nat))
    (regOk : List Char → Bool) (waits : List (Event × Bool)) :
    (containsSubstr (toLowerL env) ['x', 'i', 'd', 's'] = true →
      checkHealth env devices parseMig regOk waits = ⟨false, [], []⟩) ∧
    (toLowerL env ≠ ['a', 'l', 'l'] →
      containsSubstr (toLowerL env) ['x', 'i', 'd', 's'] = false →
      (checkHealth env devices parseMig regOk waits).subscriptionOpened = true) := by
  constructor
  · intro h
    by_cases ha : toLowerL env = ['a', 'l', 'l']
    · simp +decide [checkHealth, ha]
    · simp [checkHealth, ha, h]
  · intro ha h
    simp [checkHealth, ha, h]

/-- C9 (witness): the value `"noxidsplease"` contains `"xids"` as a
substring and disables the monitor entirely, while the value `"NO"`
lower-cases to `"no"`, is neither `"all"` nor contains `"xids"`, and lets
monitoring proceed. -/
theorem c9_disable_substring_matching_witness :
    (containsSubstr
        (toLowerL ['n', 'o', 'x', 'i', 'd', 's', 'p', 'l', 'e', 'a', 's', 'e'])
        ['x', 'i', 'd', 's'] = true ∧
      checkHealth ['n', 'o', 'x', 'i', 'd', 's', 'p', 'l', 'e', 'a', 's', 'e']
        [⟨['G', '-', '_', '-', '0'], Health.healthy, ['p']⟩] (fun _ => none)
        (fun _ => true) [] = ⟨false, [], []⟩) ∧
    (toLowerL ['N', 'O'] ≠ ['a', 'l', 'l'] ∧
      containsSubstr (toLowerL ['N', 'O']) ['x', 'i', 'd', 's'] = false ∧
      (checkHealth ['N', 'O']
        [⟨['G', '-', '_', '-', '0'], Health.healthy, ['p']⟩] (fun _ => none)
        (fun _ => true) []).subscriptionOpened = true) :=
  ⟨⟨by decide,
    (c9_disable_substring_matching ['n', 'o', 'x', 'i', 'd', 's', 'p', 'l', 'e', 'a', 's', 'e']
      [⟨['G', '-', '_', '-', '0'], Health.healthy, ['p']⟩] (fun _ => none)
      (fun _ => true) []).1 (by decide)⟩,
   ⟨by decide, by decide,
    (c9_disable_substring_matching ['N', 'O']
      [⟨['G', '-', '_', '-', '0'], Health.healthy, ['p']⟩] (fun _ => none)
      (fun _ => true) []).2 (by decide) (by decide)⟩⟩
